import Mathlib

/-!
Shallow embedding of `Carla-RL/setup.py` (function `setup`), the
bootstrap-and-connection manager for the CARLA simulator.

The Python function is a sequential retry loop with observable effects:
spawning a server process (`subprocess.Popen`), registering/unregistering
`atexit` termination hooks, issuing kill syscalls, and finally either
returning a configured client session, exiting the program (`sys.exit()`),
or letting an exception propagate.  The embedding models the loop as a
structurally recursive function over the remaining retry budget, threading
an explicit state that records the parent environment, the `atexit`
callback stack, the spawned processes and the kill calls issued.

Python-semantics points that the embedding reproduces faithfully:
* `os.environ.copy()` — the child environment is a copy; the parent
  environment in the state is never written.
* `atexit.register` / `atexit.unregister` match callbacks by object
  equality.  A `lambda` expression evaluates to a fresh function object
  each time, so `atexit.unregister(lambda: ...)` on line 103 compares a
  brand-new object against the registered entries.  Function objects are
  modelled by `Callable`, with lambda identity given by a counter in the
  state (`nextObjId`).
* `subprocess.Popen(cmd, shell=True, ...)` runs `cmd` through a shell; it
  raises only when the shell itself cannot be started.  A missing
  simulator executable inside `cmd` does not make `Popen` raise.  The
  `Config.executableExists` field records whether the executable file is
  present; per these semantics it does not influence the spawn.
* `os.path.join(os.environ.get("CARLA_ROOT"), ...)` raises `TypeError`
  when `CARLA_ROOT` is unset (`get` returns `None`); this exception, like
  any `Popen` failure, is outside the `try` block and propagates out of
  `setup` (`SetupResult.spawnError`).
* `sys.exit()` with no argument raises `SystemExit(None)`, terminating
  the process with exit status `0` (`SetupResult.exhausted 0 _`).
-/

namespace CarlaSetup

/-- POSIX signal number of SIGTERM. -/
def SIGTERM : ℕ := 15

/-- POSIX signal number of SIGKILL. -/
def SIGKILL : ℕ := 9

/-- An environment mapping (`os.environ` / the `env` dict), as an
association list with unique keys kept in insertion order. -/
abbrev Env := List (String × String)

/-- Dictionary lookup: `e.get(k)`. -/
def envLookup : Env → String → Option String
  | [], _ => none
  | (k', v) :: rest, k => if k' = k then some v else envLookup rest k

/-- Dictionary assignment `e[k] = v`: replaces the value of an existing
key in place, otherwise appends the new binding. -/
def envSet : Env → String → String → Env
  | [], k, v => [(k, v)]
  | (k', v') :: rest, k, v =>
    if k' = k then (k, v) :: rest else (k', v') :: envSet rest k v

/-- Lines 56-58 of `setup.py`: `env = os.environ.copy()` followed by the
two overrides `env["SDL_VIDEODRIVER"] = "offscreen"` and
`env["SDL_HINT_CUDA_DEVICE"] = "0"`. -/
def overlayEnv (ambient : Env) : Env :=
  envSet (envSet ambient "SDL_VIDEODRIVER" "offscreen") "SDL_HINT_CUDA_DEVICE" "0"

/-- A Python callable as compared by `atexit.unregister` (object
equality).  Each evaluation of a `lambda` expression yields a fresh
object, identified here by a number drawn from a state counter;
`os.killpg` is one fixed builtin object. -/
inductive Callable where
  | lambdaObj (objId : ℕ)
  | osKillpg
  deriving DecidableEq, Repr

/-- A kill syscall: `os.kill(pid, sig)` or `os.killpg(pgid, sig)`. -/
inductive KillAction where
  | kill (pid sig : ℕ)
  | killpg (pid sig : ℕ)
  deriving DecidableEq, Repr

/-- One `atexit` registration: the callable object (used for
`unregister` matching) and the kill it would perform at process exit. -/
structure AtexitEntry where
  func : Callable
  action : KillAction
  deriving DecidableEq, Repr

/-- Record of one spawned server process: its pid, the RPC port passed
on its command line, and the environment mapping passed to `Popen`. -/
structure LaunchRec where
  pid : ℕ
  port : ℕ
  env : Env
  deriving DecidableEq, Repr

/-- The observable state threaded through the retry loop. -/
structure SetupState where
  /-- `os.environ` of the parent process. -/
  environ : Env
  /-- Counter issuing fresh identities to lambda objects. -/
  nextObjId : ℕ
  /-- The `atexit` callback stack, in registration order. -/
  atexitStack : List AtexitEntry
  /-- All `Popen` launches performed so far, in attempt order. -/
  launches : List LaunchRec
  /-- All explicit kill syscalls issued by `setup` itself (lines 98-101),
  not counting what `atexit` hooks would do at process exit. -/
  kills : List KillAction
  deriving DecidableEq, Repr

/-- Outcome of the `try` block of one attempt (lines 78-92): either every
RPC succeeds and `setup` returns, or some step raises `RuntimeError`
(connection refused, timeout, scenario-load error, ...). -/
inductive AttemptOutcome where
  | success
  | runtimeError
  deriving DecidableEq, Repr

/-- The nondeterminism of the outside world, resolved per attempt index:
the pid `Popen` hands back, whether the try block succeeds, and the frame
id returned by `world.apply_settings`. -/
structure Oracle where
  pidOf : ℕ → ℕ
  outcome : ℕ → AttemptOutcome
  frameOf : ℕ → ℕ

/-- The parameters of `setup` plus the platform facts the code branches
on. -/
structure Config where
  town : String
  fps : ℕ := 20
  serverTimestop : ℚ := 30
  clientTimeout : ℚ := 20
  numMaxRestarts : ℕ := 10
  /-- `os.name == 'nt'`. -/
  windows : Bool := false
  /-- Whether the shell process itself can be started; `Popen` with
  `shell=True` raises exactly when it cannot. -/
  shellOk : Bool := true
  /-- Whether the simulator executable file exists.  With `shell=True`
  this has no effect on the spawn: a missing executable is reported by
  the shell at run time, not as a `Popen` exception. -/
  executableExists : Bool := true

/-- The tuple `(client, world, frame, server)` returned on success,
flattened: `client` contributes host, port and timeout; `world`
contributes the loaded town, the weather preset and the applied
`WorldSettings`; `frame` is the stepping handle; `server` its pid. -/
structure ClientSession where
  host : String
  port : ℕ
  timeout : ℚ
  town : String
  weather : String
  synchronousMode : Bool
  fixedDeltaSeconds : ℚ
  frame : ℕ
  serverPid : ℕ
  deriving DecidableEq, Repr

/-- How a call of `setup` ends. -/
inductive SetupResult where
  /-- The `return client, world, frame, server` on line 92. -/
  | ok (session : ClientSession) (st : SetupState)
  /-- `sys.exit()` on line 107 after the retry budget is exhausted;
  the carried number is the process exit status (0 for a bare
  `sys.exit()`). -/
  | exhausted (exitStatus : ℕ) (st : SetupState)
  /-- The `assert` on line 43 fails: `AssertionError` propagates before
  anything is spawned. -/
  | assertionError (st : SetupState)
  /-- An exception from the launch code (lines 61-72), outside the
  `try` block, propagates out of `setup` uncaught. -/
  | spawnError (st : SetupState)
  deriving DecidableEq, Repr

/-- The final observable state of a run, whichever way it ended. -/
def SetupResult.state : SetupResult → SetupState
  | .ok _ st => st
  | .exhausted _ st => st
  | .assertionError st => st
  | .spawnError st => st

/-- The process exit status when the run ended the program by
`sys.exit`, otherwise `none`. -/
def SetupResult.exitStatusOf : SetupResult → Option ℕ
  | .exhausted c _ => some c
  | _ => none

/-- Whether the run ended with an uncaught launch exception. -/
def SetupResult.isSpawnError : SetupResult → Bool
  | .spawnError _ => true
  | _ => false

/-- The allowed towns of the `assert` on line 43. -/
def allowedTowns : List String :=
  ["Town01", "Town02", "Town03", "Town04", "Town05"]

/-- Lines 56-72: build the overlay environment and spawn the server for
attempt `attempts`.  Returns the server pid and the updated state, or
`none` when an exception propagates: `TypeError` from
`os.path.join(None, ...)` if `CARLA_ROOT` is unset, or a `Popen` failure
if the shell cannot be started.  On Windows a fresh lambda is registered
with `atexit`; on POSIX the builtin `os.killpg` is registered with
arguments `(server.pid, SIGKILL)`. -/
def launchServer (cfg : Config) (oracle : Oracle) (attempts : ℕ)
    (st : SetupState) : Option (ℕ × SetupState) :=
  match envLookup st.environ "CARLA_ROOT" with
  | none => none
  | some _ =>
    if cfg.shellOk then
      let pid := oracle.pidOf attempts
      let port := 2000 + attempts
      let env := overlayEnv st.environ
      if cfg.windows then
        some (pid,
          { st with
            nextObjId := st.nextObjId + 1,
            atexitStack := st.atexitStack ++
              [⟨Callable.lambdaObj st.nextObjId, KillAction.kill pid SIGTERM⟩],
            launches := st.launches ++ [⟨pid, port, env⟩] })
      else
        some (pid,
          { st with
            atexitStack := st.atexitStack ++
              [⟨Callable.osKillpg, KillAction.killpg pid SIGKILL⟩],
            launches := st.launches ++ [⟨pid, port, env⟩] })
    else none

/-- Line 103: `atexit.unregister(lambda: os.kill(server.pid,
signal.SIGTERM))`.  The lambda expression evaluates to a fresh function
object; `unregister` removes the registered entries whose callable
equals that object. -/
def unregisterFreshLambda (st : SetupState) : SetupState :=
  let freshLambda := Callable.lambdaObj st.nextObjId
  { st with
    nextObjId := st.nextObjId + 1,
    atexitStack := st.atexitStack.filter (fun e => e.func ≠ freshLambda) }

/-- The `ClientSession` built by a successful try block at attempt
`attempts`: connect to `localhost:(2000+attempts)` with the client
timeout, load `cfg.town`, set `ClearNoon` weather, apply
`WorldSettings(synchronous_mode=True, fixed_delta_seconds=1.0/fps)` and
capture the returned frame id. -/
def mkSession (cfg : Config) (oracle : Oracle) (attempts : ℕ) : ClientSession where
  host := "localhost"
  port := 2000 + attempts
  timeout := cfg.clientTimeout
  town := cfg.town
  weather := "ClearNoon"
  synchronousMode := true
  fixedDeltaSeconds := 1 / (cfg.fps : ℚ)
  frame := oracle.frameOf attempts
  serverPid := oracle.pidOf attempts

/-- The `while attempts < num_max_restarts` loop (lines 48-103) followed
by `sys.exit()` (line 107).  `remaining` is `num_max_restarts - attempts`
and `attempts` the counter of line 46; each retryable failure increments
`attempts` (line 95), kills the process (lines 98-101) and calls
`atexit.unregister` with a fresh lambda (line 103) before looping. -/
def setupLoop (cfg : Config) (oracle : Oracle) :
    ℕ → ℕ → SetupState → SetupResult
  | 0, _, st => .exhausted 0 st
  | remaining + 1, attempts, st =>
    match launchServer cfg oracle attempts st with
    | none => .spawnError st
    | some (pid, st1) =>
      match oracle.outcome attempts with
      | .success => .ok (mkSession cfg oracle attempts) st1
      | .runtimeError =>
        let st2 := { st1 with
          kills := st1.kills ++
            [if cfg.windows then KillAction.kill pid SIGTERM
             else KillAction.killpg pid SIGKILL] }
        setupLoop cfg oracle remaining (attempts + 1) (unregisterFreshLambda st2)

/-- The entry point `setup(town, fps, server_timestop, client_timeout,
num_max_restarts)`: the `assert` of line 43 followed by the retry loop,
started from the ambient environment `environ0`. -/
def setup (cfg : Config) (oracle : Oracle) (environ0 : Env) : SetupResult :=
  let st0 : SetupState := ⟨environ0, 0, [], [], []⟩
  if cfg.town ∈ allowedTowns then
    setupLoop cfg oracle cfg.numMaxRestarts 0 st0
  else
    .assertionError st0

/-- A sample ambient environment used by the concrete runs below. -/
def env0 : Env :=
  [("CARLA_ROOT", "/opt/carla"), ("DISPLAY", ":0"), ("PATH", "/usr/bin")]

/-- An oracle on which every attempt fails with `RuntimeError`; attempt
`a`'s process gets pid `1000 + a`. -/
def orFail : Oracle where
  pidOf := fun a => 1000 + a
  outcome := fun _ => .runtimeError
  frameOf := fun _ => 0

/-- A POSIX configuration for town `Town01` with `n` max restarts and
the default parameters. -/
def mkCfg (n : ℕ) : Config := { town := "Town01", numMaxRestarts := n }

/-- An oracle on which attempt 0 fails with `RuntimeError` and every
later attempt succeeds, returning frame id 42. -/
def orOnce : Oracle where
  pidOf := fun a => 1000 + a
  outcome := fun a => if a = 0 then .runtimeError else .success
  frameOf := fun _ => 42

/-- The ports of the processes launched so far, in attempt order. -/
def portsOf (st : SetupState) : List ℕ := st.launches.map (fun L => L.port)

/-! ### Inversion and step lemmas -/

/-- Inverting a successful spawn: the pid is the oracle's, the parent
environment is untouched, exactly one launch record is appended and no
kill is issued. -/
theorem launchServer_eq_some {cfg : Config} {oracle : Oracle} {attempts : ℕ}
    {st : SetupState} {pid : ℕ} {st1 : SetupState}
    (h : launchServer cfg oracle attempts st = some (pid, st1)) :
    pid = oracle.pidOf attempts ∧
    st1.environ = st.environ ∧
    st1.launches = st.launches ++
      [⟨oracle.pidOf attempts, 2000 + attempts, overlayEnv st.environ⟩] ∧
    st1.kills = st.kills := by
  unfold launchServer at h
  cases hr : envLookup st.environ "CARLA_ROOT" <;> rw [hr] at h
  · exact absurd h (by simp)
  · by_cases hs : cfg.shellOk = true
    · rw [if_pos hs] at h
      by_cases hw : cfg.windows = true
      · rw [if_pos hw] at h
        simp only [Option.some.injEq, Prod.mk.injEq] at h
        obtain ⟨hpid, hst⟩ := h
        subst hst
        exact ⟨hpid.symm, rfl, rfl, rfl⟩
      · rw [if_neg hw] at h
        simp only [Option.some.injEq, Prod.mk.injEq] at h
        obtain ⟨hpid, hst⟩ := h
        subst hst
        exact ⟨hpid.symm, rfl, rfl, rfl⟩
    · rw [if_neg hs] at h
      exact absurd h (by simp)

/-- A spawn goes through whenever `CARLA_ROOT` is set and the shell can
be started, with the state changes of `launchServer_eq_some`. -/
theorem launchServer_spec (cfg : Config) (oracle : Oracle) (attempts : ℕ)
    (st : SetupState)
    (hroot : envLookup st.environ "CARLA_ROOT" ≠ none)
    (hshell : cfg.shellOk = true) :
    ∃ st1, launchServer cfg oracle attempts st = some (oracle.pidOf attempts, st1) ∧
      st1.environ = st.environ ∧
      st1.launches = st.launches ++
        [⟨oracle.pidOf attempts, 2000 + attempts, overlayEnv st.environ⟩] ∧
      st1.kills = st.kills := by
  unfold launchServer
  cases hr : envLookup st.environ "CARLA_ROOT"
  · exact absurd hr hroot
  · rw [if_pos hshell]
    by_cases hw : cfg.windows = true
    · rw [if_pos hw]
      exact ⟨_, rfl, rfl, rfl, rfl⟩
    · rw [if_neg hw]
      exact ⟨_, rfl, rfl, rfl, rfl⟩

/-- One loop iteration on a spawn failure ends the run with the
exception propagating. -/
theorem setupLoop_spawnFail {cfg : Config} {oracle : Oracle}
    {remaining attempts : ℕ} {st : SetupState}
    (hl : launchServer cfg oracle attempts st = none) :
    setupLoop cfg oracle (remaining + 1) attempts st = .spawnError st := by
  simp only [setupLoop, hl]

/-- One loop iteration on a successful attempt returns the session. -/
theorem setupLoop_successStep {cfg : Config} {oracle : Oracle}
    {remaining attempts : ℕ} {st : SetupState} {pid : ℕ} {st1 : SetupState}
    (hl : launchServer cfg oracle attempts st = some (pid, st1))
    (ho : oracle.outcome attempts = AttemptOutcome.success) :
    setupLoop cfg oracle (remaining + 1) attempts st =
      .ok (mkSession cfg oracle attempts) st1 := by
  simp only [setupLoop, hl, ho]

/-- One loop iteration on a retryable failure: the process of the
attempt is killed, the fresh-lambda `unregister` runs, and the loop
continues with the attempt counter incremented by one. -/
theorem setupLoop_failStep {cfg : Config} {oracle : Oracle}
    {remaining attempts : ℕ} {st : SetupState} {pid : ℕ} {st1 : SetupState}
    (hl : launchServer cfg oracle attempts st = some (pid, st1))
    (ho : oracle.outcome attempts = AttemptOutcome.runtimeError) :
    setupLoop cfg oracle (remaining + 1) attempts st =
      setupLoop cfg oracle remaining (attempts + 1)
        (unregisterFreshLambda
          { st1 with kills := st1.kills ++
              [if cfg.windows then KillAction.kill pid SIGTERM
               else KillAction.killpg pid SIGKILL] }) := by
  simp only [setupLoop, hl, ho]

/-- `unregisterFreshLambda` only touches the callback stack and the
object counter. -/
theorem unregisterFreshLambda_environ (st : SetupState) :
    (unregisterFreshLambda st).environ = st.environ := rfl

/-- The retry loop never writes the parent environment. -/
theorem setupLoop_environ (cfg : Config) (oracle : Oracle) :
    ∀ remaining attempts st,
      ((setupLoop cfg oracle remaining attempts st).state).environ = st.environ := by
  intro remaining
  induction remaining with
  | zero => intro attempts st; rfl
  | succ rem ih =>
    intro attempts st
    cases hl : launchServer cfg oracle attempts st with
    | none => rw [setupLoop_spawnFail hl]; rfl
    | some p =>
      obtain ⟨pid, st1⟩ := p
      obtain ⟨-, henv, -, -⟩ := launchServer_eq_some hl
      cases ho : oracle.outcome attempts with
      | success =>
        rw [setupLoop_successStep hl ho]
        exact henv
      | runtimeError =>
        rw [setupLoop_failStep hl ho, ih]
        exact henv

/-- A run on which every attempt raises `RuntimeError` exhausts the
whole retry budget and ends in `sys.exit()` with status 0, having
launched one process per budgeted attempt. -/
theorem setupLoop_allFail (cfg : Config) (oracle : Oracle)
    (hshell : cfg.shellOk = true)
    (hfail : ∀ i, oracle.outcome i = AttemptOutcome.runtimeError) :
    ∀ remaining attempts st, envLookup st.environ "CARLA_ROOT" ≠ none →
      ∃ st', setupLoop cfg oracle remaining attempts st = .exhausted 0 st' ∧
        st'.launches.length = st.launches.length + remaining ∧
        st'.environ = st.environ := by
  intro remaining
  induction remaining with
  | zero =>
    intro attempts st _
    exact ⟨st, rfl, rfl, rfl⟩
  | succ rem ih =>
    intro attempts st hroot
    obtain ⟨st1, hl, henv, hlaunch, -⟩ :=
      launchServer_spec cfg oracle attempts st hroot hshell
    rw [setupLoop_failStep hl (hfail attempts)]
    set st3 := unregisterFreshLambda
      { st1 with kills := st1.kills ++
          [if cfg.windows then KillAction.kill (oracle.pidOf attempts) SIGTERM
           else KillAction.killpg (oracle.pidOf attempts) SIGKILL] } with hst3
    have henv3 : st3.environ = st.environ := henv
    have hlaunch3 : st3.launches = st1.launches := rfl
    obtain ⟨st', heq, hlen, henv'⟩ := ih (attempts + 1) st3 (henv3 ▸ hroot)
    refine ⟨st', heq, ?_, henv'.trans henv3⟩
    rw [hlen, hlaunch3, hlaunch]
    simp [Nat.add_assoc, Nat.add_comm 1 rem]

/-- If the first `k` attempts fail and attempt `attempts + k` succeeds
within the remaining budget, the loop returns the session of attempt
`attempts + k`. -/
theorem setupLoop_firstSuccess (cfg : Config) (oracle : Oracle)
    (hshell : cfg.shellOk = true) :
    ∀ remaining k attempts st, k < remaining →
      envLookup st.environ "CARLA_ROOT" ≠ none →
      (∀ i, i < k → oracle.outcome (attempts + i) = AttemptOutcome.runtimeError) →
      oracle.outcome (attempts + k) = AttemptOutcome.success →
      ∃ st', setupLoop cfg oracle remaining attempts st =
        .ok (mkSession cfg oracle (attempts + k)) st' := by
  intro remaining
  induction remaining with
  | zero =>
    intro k attempts st hk
    exact absurd hk (Nat.not_lt_zero k)
  | succ rem ih =>
    intro k attempts st hk hroot hfail hsucc
    obtain ⟨st1, hl, henv, -, -⟩ :=
      launchServer_spec cfg oracle attempts st hroot hshell
    cases k with
    | zero =>
      rw [Nat.add_zero] at hsucc
      refine ⟨st1, ?_⟩
      rw [setupLoop_successStep hl hsucc, Nat.add_zero]
    | succ j =>
      have hfail0 : oracle.outcome attempts = AttemptOutcome.runtimeError := by
        have := hfail 0 (Nat.succ_pos j)
        rwa [Nat.add_zero] at this
      rw [setupLoop_failStep hl hfail0]
      set st3 := unregisterFreshLambda
        { st1 with kills := st1.kills ++
            [if cfg.windows then KillAction.kill (oracle.pidOf attempts) SIGTERM
             else KillAction.killpg (oracle.pidOf attempts) SIGKILL] } with hst3
      have henv3 : st3.environ = st.environ := henv
      have hfail' : ∀ i, i < j →
          oracle.outcome (attempts + 1 + i) = AttemptOutcome.runtimeError := by
        intro i hi
        have := hfail (i + 1) (Nat.succ_lt_succ hi)
        rwa [show attempts + (i + 1) = attempts + 1 + i by omega] at this
      have hsucc' : oracle.outcome (attempts + 1 + j) = AttemptOutcome.success := by
        rwa [show attempts + 1 + j = attempts + (j + 1) by omega]
      obtain ⟨st', heq⟩ := ih j (attempts + 1) st3
        (Nat.lt_of_succ_lt_succ hk) (henv3 ▸ hroot) hfail' hsucc'
      refine ⟨st', ?_⟩
      rw [heq, show attempts + 1 + j = attempts + (j + 1) by omega]

/-- Mapping an offset over `range (k + 1)` peels off the head and
shifts the offset. -/
theorem range_succ_shift (a k : ℕ) :
    (List.range (k + 1)).map (fun i => a + i) =
      a :: (List.range k).map (fun i => a + 1 + i) := by
  simp only [List.range_succ_eq_map, List.map_cons, List.map_map]
  congr 1
  congr 1
  funext i
  simp only [Function.comp_apply]
  omega

/-- The ports the loop launches on form the contiguous range starting
at `2000 + attempts`, one per performed attempt. -/
theorem setupLoop_ports (cfg : Config) (oracle : Oracle) :
    ∀ remaining attempts st,
      ∃ k, k ≤ remaining ∧
        portsOf (setupLoop cfg oracle remaining attempts st).state =
          portsOf st ++ (List.range k).map (fun i => 2000 + attempts + i) := by
  intro remaining
  induction remaining with
  | zero =>
    intro attempts st
    exact ⟨0, Nat.le_refl 0, by simp [setupLoop, SetupResult.state]⟩
  | succ rem ih =>
    intro attempts st
    cases hl : launchServer cfg oracle attempts st with
    | none =>
      refine ⟨0, Nat.zero_le _, ?_⟩
      rw [setupLoop_spawnFail hl]
      simp [SetupResult.state]
    | some p =>
      obtain ⟨pid, st1⟩ := p
      obtain ⟨-, henv, hlaunch, -⟩ := launchServer_eq_some hl
      have hports1 : portsOf st1 = portsOf st ++ [2000 + attempts] := by
        rw [portsOf, hlaunch]
        simp [portsOf]
      cases ho : oracle.outcome attempts with
      | success =>
        refine ⟨1, Nat.one_le_iff_ne_zero.mpr (Nat.succ_ne_zero rem), ?_⟩
        rw [setupLoop_successStep hl ho]
        simpa [SetupResult.state] using hports1
      | runtimeError =>
        rw [setupLoop_failStep hl ho]
        set st3 := unregisterFreshLambda
          { st1 with kills := st1.kills ++
              [if cfg.windows then KillAction.kill pid SIGTERM
               else KillAction.killpg pid SIGKILL] } with hst3
        have hports3 : portsOf st3 = portsOf st ++ [2000 + attempts] := hports1
        obtain ⟨k', hk', hp⟩ := ih (attempts + 1) st3
        refine ⟨k' + 1, Nat.succ_le_succ hk', ?_⟩
        rw [hp, hports3, range_succ_shift (2000 + attempts) k']
        rw [show 2000 + (attempts + 1) = 2000 + attempts + 1 by omega]
        simp [List.append_assoc]

/-- Every process the loop launches gets the overlay environment built
from the (unchanged) parent environment. -/
theorem setupLoop_launch_env (cfg : Config) (oracle : Oracle) :
    ∀ remaining attempts st L,
      L ∈ ((setupLoop cfg oracle remaining attempts st).state).launches →
      L ∈ st.launches ∨ L.env = overlayEnv st.environ := by
  intro remaining
  induction remaining with
  | zero =>
    intro attempts st L hL
    exact Or.inl hL
  | succ rem ih =>
    intro attempts st L hL
    cases hl : launchServer cfg oracle attempts st with
    | none =>
      rw [setupLoop_spawnFail hl] at hL
      exact Or.inl hL
    | some p =>
      obtain ⟨pid, st1⟩ := p
      obtain ⟨-, henv, hlaunch, -⟩ := launchServer_eq_some hl
      cases ho : oracle.outcome attempts with
      | success =>
        rw [setupLoop_successStep hl ho] at hL
        have : L ∈ st1.launches := hL
        rw [hlaunch] at this
        rcases List.mem_append.mp this with h | h
        · exact Or.inl h
        · right
          rw [List.mem_singleton.mp h]
      | runtimeError =>
        rw [setupLoop_failStep hl ho] at hL
        set st3 := unregisterFreshLambda
          { st1 with kills := st1.kills ++
              [if cfg.windows then KillAction.kill pid SIGTERM
               else KillAction.killpg pid SIGKILL] } with hst3
        have henv3 : st3.environ = st.environ := henv
        rcases ih (attempts + 1) st3 L hL with h | h
        · have : L ∈ st1.launches := h
          rw [hlaunch] at this
          rcases List.mem_append.mp this with h' | h'
          · exact Or.inl h'
          · right
            rw [List.mem_singleton.mp h']
        · right
          rw [h, henv3]

/-- Lookup after dictionary assignment: the assigned key reads the new
value, every other key reads as before. -/
theorem envLookup_envSet (e : Env) (k v k' : String) :
    envLookup (envSet e k v) k' = if k = k' then some v else envLookup e k' := by
  induction e with
  | nil => simp [envSet, envLookup]
  | cons p rest ih =>
    obtain ⟨k'', v''⟩ := p
    by_cases h : k'' = k
    · subst h
      simp only [envSet, if_pos rfl, envLookup]
      split_ifs <;> rfl
    · simp only [envSet, if_neg h, envLookup, ih]
      by_cases h1 : k = k'
      · subst h1
        simp [h]
      · simp [h1]

/-- The overlay built on lines 56-58 overrides exactly
`SDL_VIDEODRIVER` and `SDL_HINT_CUDA_DEVICE` and preserves every other
ambient binding. -/
theorem envLookup_overlayEnv (ambient : Env) (k : String) :
    envLookup (overlayEnv ambient) k =
      if k = "SDL_VIDEODRIVER" then some "offscreen"
      else if k = "SDL_HINT_CUDA_DEVICE" then some "0"
      else envLookup ambient k := by
  unfold overlayEnv
  rw [envLookup_envSet, envLookup_envSet]
  by_cases h1 : k = "SDL_VIDEODRIVER"
  · subst h1
    rw [if_pos rfl, if_neg (by decide), if_pos rfl]
  · by_cases h2 : k = "SDL_HINT_CUDA_DEVICE"
    · subst h2
      rw [if_pos rfl, if_pos rfl, if_neg h1]
    · rw [if_neg (fun h => h2 h.symm), if_neg (fun h => h1 h.symm),
        if_neg h1, if_neg h2]

/-! ### Claim theorems -/

/-- Claim C1: evaluation of the code at the failing input.  With
`town = "Town01"`, `num_max_restarts = 2` on POSIX and both attempts
failing, the final `atexit` stack still holds BOTH registrations — the
hook of failed attempt 0 was not removed before (or after) attempt 1's
process was launched, because `atexit.unregister` is called with a
freshly created lambda that equals no registered callback (on POSIX the
registered callback is even the builtin `os.killpg`).  Two shutdown
registrations therefore coexist, contradicting the claimed invariant. -/
theorem setup_stale_hooks_accumulate :
    ((setup (mkCfg 2) orFail env0).state).atexitStack =
      [⟨Callable.osKillpg, KillAction.killpg 1000 SIGKILL⟩,
       ⟨Callable.osKillpg, KillAction.killpg 1001 SIGKILL⟩] ∧
    ((setup (mkCfg 2) orFail env0).state).kills =
      [KillAction.killpg 1000 SIGKILL, KillAction.killpg 1001 SIGKILL] := by
  decide

/-- Claim C2 (counterexample): with `town = "Town01"`,
`num_max_restarts = 3` and every attempt failing, `setup` does stop
after exactly 3 attempts, but it terminates via a bare `sys.exit()`,
whose process exit status is 0 — the SUCCESS status, not a failure
signal. -/
theorem setup_exit_status_is_success_code :
    (setup (mkCfg 3) orFail env0).exitStatusOf = some 0 ∧
    ((setup (mkCfg 3) orFail env0).state).launches.length = 3 := by
  decide

/-- Claim C2 (amended): after exactly `num_max_restarts` consecutive
retryable failures, `setup` performs no further attempts and terminates
the program via `sys.exit()` — with the interpreter's default exit
status 0, not a nonzero failure code. -/
theorem setup_exhausts_after_max (cfg : Config) (oracle : Oracle) (environ0 : Env)
    (htown : cfg.town ∈ allowedTowns)
    (hroot : envLookup environ0 "CARLA_ROOT" ≠ none)
    (hshell : cfg.shellOk = true)
    (hfail : ∀ i, oracle.outcome i = AttemptOutcome.runtimeError) :
    ∃ st', setup cfg oracle environ0 = .exhausted 0 st' ∧
      st'.launches.length = cfg.numMaxRestarts := by
  simp only [setup]
  rw [if_pos htown]
  obtain ⟨st', heq, hlen, -⟩ :=
    setupLoop_allFail cfg oracle hshell hfail cfg.numMaxRestarts 0
      ⟨environ0, 0, [], [], []⟩ hroot
  exact ⟨st', heq, by simpa using hlen⟩

/-- Witness for `setup_exhausts_after_max` at `num_max_restarts = 2`
with every attempt failing. -/
theorem setup_exhausts_after_max_witness :
    ((mkCfg 2).town ∈ allowedTowns ∧
      envLookup env0 "CARLA_ROOT" ≠ none ∧ (mkCfg 2).shellOk = true) ∧
    ∃ st', setup (mkCfg 2) orFail env0 = .exhausted 0 st' ∧
      st'.launches.length = (mkCfg 2).numMaxRestarts :=
  ⟨⟨by decide, by decide, rfl⟩,
    setup_exhausts_after_max (mkCfg 2) orFail env0 (by decide) (by decide) rfl
      (fun _ => rfl)⟩

/-- Claim C3: in any run of `setup`, the ports of the launched
processes are exactly `2000 + 0, 2000 + 1, ...` in attempt order — port
of attempt `i` is `base_port + i` with `base_port = 2000`, strictly
increasing, never reused. -/
theorem setup_ports_increasing (cfg : Config) (oracle : Oracle) (environ0 : Env) :
    ∃ k, k ≤ cfg.numMaxRestarts ∧
      portsOf (setup cfg oracle environ0).state =
        (List.range k).map (fun i => 2000 + i) ∧
      List.Pairwise (· < ·) (portsOf (setup cfg oracle environ0).state) := by
  have hmain : ∃ k, k ≤ cfg.numMaxRestarts ∧
      portsOf (setup cfg oracle environ0).state =
        (List.range k).map (fun i => 2000 + i) := by
    simp only [setup]
    by_cases htown : cfg.town ∈ allowedTowns
    · rw [if_pos htown]
      obtain ⟨k, hk, hp⟩ := setupLoop_ports cfg oracle cfg.numMaxRestarts 0
        ⟨environ0, 0, [], [], []⟩
      refine ⟨k, hk, ?_⟩
      rw [hp]
      simp [portsOf]
    · rw [if_neg htown]
      exact ⟨0, Nat.zero_le _, by simp [portsOf, SetupResult.state]⟩
  obtain ⟨k, hk, hp⟩ := hmain
  refine ⟨k, hk, hp, ?_⟩
  rw [hp, List.pairwise_map]
  exact (List.pairwise_lt_range k).imp (fun h => by omega)

/-- Claim C4: evaluation of the code at the failing input.  With
`num_max_restarts = 1` and the single attempt failing, `setup` exits
with the explicit kill already issued (`kills`), yet the "unregistered"
termination hook is still on the `atexit` stack: at program exit it
fires a second time against the already-killed process group.
Deregistration did not make the hook unreachable, because
`atexit.unregister` was handed a fresh lambda that matches nothing. -/
theorem setup_hook_survives_unregister :
    setup (mkCfg 1) orFail env0 =
      .exhausted 0
        ⟨env0, 1,
         [⟨Callable.osKillpg, KillAction.killpg 1000 SIGKILL⟩],
         [⟨1000, 2000, overlayEnv env0⟩],
         [KillAction.killpg 1000 SIGKILL]⟩ := by
  decide

/-- Claim C5: a retryable failure (`RuntimeError` in the try block) is
swallowed rather than propagated: the iteration forcefully kills that
attempt's process (`SIGTERM` to the pid on Windows, `SIGKILL` to the
process group on POSIX), increments the attempt counter by exactly one,
and the loop continues with the next attempt. -/
theorem setup_retryable_failure_step (cfg : Config) (oracle : Oracle)
    (remaining attempts : ℕ) (st : SetupState)
    (hroot : envLookup st.environ "CARLA_ROOT" ≠ none)
    (hshell : cfg.shellOk = true)
    (hfail : oracle.outcome attempts = AttemptOutcome.runtimeError) :
    ∃ st', setupLoop cfg oracle (remaining + 1) attempts st =
        setupLoop cfg oracle remaining (attempts + 1) st' ∧
      st'.kills = st.kills ++
        [if cfg.windows then KillAction.kill (oracle.pidOf attempts) SIGTERM
         else KillAction.killpg (oracle.pidOf attempts) SIGKILL] ∧
      st'.launches = st.launches ++
        [⟨oracle.pidOf attempts, 2000 + attempts, overlayEnv st.environ⟩] ∧
      st'.environ = st.environ := by
  obtain ⟨st1, hl, henv, hlaunch, hkills⟩ :=
    launchServer_spec cfg oracle attempts st hroot hshell
  refine ⟨_, setupLoop_failStep hl hfail, ?_, ?_, ?_⟩
  · show ({ st1 with kills := st1.kills ++
        [if cfg.windows then KillAction.kill (oracle.pidOf attempts) SIGTERM
         else KillAction.killpg (oracle.pidOf attempts) SIGKILL] } : SetupState).kills
      = _
    rw [hkills]
  · exact hlaunch
  · exact henv

/-- Witness for `setup_retryable_failure_step` on the first attempt of a
POSIX run. -/
theorem setup_retryable_failure_step_witness :
    (envLookup env0 "CARLA_ROOT" ≠ none ∧ (mkCfg 1).shellOk = true ∧
      orFail.outcome 0 = AttemptOutcome.runtimeError) ∧
    ∃ st', setupLoop (mkCfg 1) orFail (0 + 1) 0 ⟨env0, 0, [], [], []⟩ =
        setupLoop (mkCfg 1) orFail 0 (0 + 1) st' ∧
      st'.kills = [] ++
        [if (mkCfg 1).windows then KillAction.kill (orFail.pidOf 0) SIGTERM
         else KillAction.killpg (orFail.pidOf 0) SIGKILL] ∧
      st'.launches = [] ++ [⟨orFail.pidOf 0, 2000 + 0, overlayEnv env0⟩] ∧
      st'.environ = env0 :=
  ⟨⟨by decide, rfl, rfl⟩,
    setup_retryable_failure_step (mkCfg 1) orFail 0 0 ⟨env0, 0, [], [], []⟩
      (by decide) rfl rfl⟩

/-- Claim C6: a town outside the allowed five is rejected by the
`assert` on line 43 before anything happens: no process is spawned, and
the run ends as a propagating `AssertionError`, not via the retry loop
or `sys.exit`. -/
theorem setup_invalid_town_rejected (cfg : Config) (oracle : Oracle)
    (environ0 : Env) (h : cfg.town ∉ allowedTowns) :
    setup cfg oracle environ0 = .assertionError ⟨environ0, 0, [], [], []⟩ ∧
    ((setup cfg oracle environ0).state).launches = [] ∧
    (setup cfg oracle environ0).exitStatusOf = none := by
  have heq : setup cfg oracle environ0 = .assertionError ⟨environ0, 0, [], [], []⟩ := by
    simp only [setup]
    rw [if_neg h]
  exact ⟨heq, by rw [heq]; rfl, by rw [heq]; rfl⟩

/-- Witness for `setup_invalid_town_rejected` at town `"Town99"`. -/
theorem setup_invalid_town_rejected_witness :
    (({ town := "Town99" } : Config).town ∉ allowedTowns) ∧
    setup { town := "Town99" } orFail env0 =
      .assertionError ⟨env0, 0, [], [], []⟩ :=
  ⟨by decide,
    (setup_invalid_town_rejected { town := "Town99" } orFail env0 (by decide)).1⟩

/-- Claim C7: when the first success happens at attempt `k` (all earlier
attempts failed, `k` within the budget), `setup` returns the session of
attempt `k`: synchronous mode on, fixed step `1 / fps`, the stepping
handle (frame id) captured from `apply_settings`, connected to
`localhost:(2000 + k)` with the configured timeout and the requested
town loaded — all configured before `setup` returns. -/
theorem setup_success_configuration (cfg : Config) (oracle : Oracle)
    (environ0 : Env) (k : ℕ)
    (htown : cfg.town ∈ allowedTowns)
    (hroot : envLookup environ0 "CARLA_ROOT" ≠ none)
    (hshell : cfg.shellOk = true)
    (hk : k < cfg.numMaxRestarts)
    (hfail : ∀ i, i < k → oracle.outcome i = AttemptOutcome.runtimeError)
    (hsucc : oracle.outcome k = AttemptOutcome.success) :
    ∃ st' s, setup cfg oracle environ0 = .ok s st' ∧
      s.synchronousMode = true ∧
      s.fixedDeltaSeconds = 1 / (cfg.fps : ℚ) ∧
      s.frame = oracle.frameOf k ∧
      s.port = 2000 + k ∧
      s.town = cfg.town ∧
      s.host = "localhost" ∧
      s.timeout = cfg.clientTimeout := by
  simp only [setup]
  rw [if_pos htown]
  have hfail' : ∀ i, i < k → oracle.outcome (0 + i) = AttemptOutcome.runtimeError := by
    intro i hi
    rw [Nat.zero_add]
    exact hfail i hi
  have hsucc' : oracle.outcome (0 + k) = AttemptOutcome.success := by
    rwa [Nat.zero_add]
  obtain ⟨st', heq⟩ := setupLoop_firstSuccess cfg oracle hshell
    cfg.numMaxRestarts k 0 ⟨environ0, 0, [], [], []⟩ hk hroot hfail' hsucc'
  rw [Nat.zero_add] at heq
  exact ⟨st', mkSession cfg oracle k, heq, rfl, rfl, rfl, rfl, rfl, rfl, rfl⟩

/-- Witness for `setup_success_configuration`: attempt 0 fails, attempt
1 succeeds with frame id 42. -/
theorem setup_success_configuration_witness :
    ((mkCfg 3).town ∈ allowedTowns ∧ 1 < (mkCfg 3).numMaxRestarts ∧
      orOnce.outcome 1 = AttemptOutcome.success) ∧
    ∃ st' s, setup (mkCfg 3) orOnce env0 = .ok s st' ∧
      s.synchronousMode = true ∧
      s.fixedDeltaSeconds = 1 / ((mkCfg 3).fps : ℚ) ∧
      s.frame = orOnce.frameOf 1 ∧
      s.port = 2000 + 1 ∧
      s.town = (mkCfg 3).town ∧
      s.host = "localhost" ∧
      s.timeout = (mkCfg 3).clientTimeout :=
  ⟨⟨by decide, by decide, rfl⟩,
    setup_success_configuration (mkCfg 3) orOnce env0 1 (by decide) (by decide)
      rfl (by decide) (by decide) rfl⟩

/-- Claim C8 (counterexample): a missing simulator executable does NOT
make `setup` fail fatally without consuming attempts.  With
`executableExists = false` (but the shell startable and `CARLA_ROOT`
set), `Popen(..., shell=True)` still succeeds, so the run goes down the
retryable path: here 2 attempts are consumed and the run ends in retry
exhaustion (`sys.exit()`), not in a propagating spawn exception. -/
theorem setup_missing_executable_retries :
    ({ mkCfg 2 with executableExists := false } : Config).executableExists = false ∧
    (setup { mkCfg 2 with executableExists := false } orFail env0).isSpawnError
      = false ∧
    ((setup { mkCfg 2 with executableExists := false } orFail env0).state).launches.length
      = 2 ∧
    (setup { mkCfg 2 with executableExists := false } orFail env0).exitStatusOf
      = some 0 := by
  decide

/-- Claim C8 (amended): when the spawn call itself raises — `CARLA_ROOT`
unset, so `os.path.join(None, ...)` raises `TypeError`, or the shell
cannot be started, so `Popen` raises — the exception propagates out of
`setup` uncaught: fatal, never retried, no attempt consumed and no
process launched.  A merely missing executable file is instead surfaced
later as a retryable connection failure (see the counterexample). -/
theorem setup_spawn_exception_fatal (cfg : Config) (oracle : Oracle)
    (environ0 : Env)
    (htown : cfg.town ∈ allowedTowns)
    (hn : 0 < cfg.numMaxRestarts)
    (h : envLookup environ0 "CARLA_ROOT" = none ∨ cfg.shellOk = false) :
    setup cfg oracle environ0 = .spawnError ⟨environ0, 0, [], [], []⟩ ∧
    ((setup cfg oracle environ0).state).launches = [] ∧
    (setup cfg oracle environ0).isSpawnError = true := by
  have hl : launchServer cfg oracle 0 ⟨environ0, 0, [], [], []⟩ = none := by
    simp only [launchServer]
    cases hr : envLookup environ0 "CARLA_ROOT" with
    | none => exact rfl
    | some r =>
      rcases h with h | h
      · rw [hr] at h
        exact absurd h (by simp)
      · rw [if_neg (by simp [h])]
  have heq : setup cfg oracle environ0 = .spawnError ⟨environ0, 0, [], [], []⟩ := by
    simp only [setup]
    rw [if_pos htown]
    obtain ⟨m, hm⟩ := Nat.exists_eq_succ_of_ne_zero (Nat.pos_iff_ne_zero.mp hn)
    rw [hm]
    exact setupLoop_spawnFail hl
  exact ⟨heq, by rw [heq]; rfl, by rw [heq]; rfl⟩

/-- Witness for `setup_spawn_exception_fatal`: ambient environment
without `CARLA_ROOT`. -/
theorem setup_spawn_exception_fatal_witness :
    ((mkCfg 1).town ∈ allowedTowns ∧ 0 < (mkCfg 1).numMaxRestarts ∧
      envLookup [("PATH", "/usr/bin")] "CARLA_ROOT" = none) ∧
    setup (mkCfg 1) orFail [("PATH", "/usr/bin")] =
      .spawnError ⟨[("PATH", "/usr/bin")], 0, [], [], []⟩ :=
  ⟨⟨by decide, by decide, by decide⟩,
    (setup_spawn_exception_fatal (mkCfg 1) orFail [("PATH", "/usr/bin")]
      (by decide) (by decide) (Or.inl (by decide))).1⟩

/-- Claim C9: every process spawned in a run of `setup` receives as its
`Popen` environment exactly the ambient environment with the rendering
driver key `SDL_VIDEODRIVER` forced to `"offscreen"` and the GPU device
key `SDL_HINT_CUDA_DEVICE` pinned to `"0"`; looking up any other key in
the child environment gives the ambient value unchanged. -/
theorem setup_child_env_overlay (cfg : Config) (oracle : Oracle)
    (environ0 : Env) (L : LaunchRec) (key : String)
    (hL : L ∈ ((setup cfg oracle environ0).state).launches) :
    envLookup L.env key =
      if key = "SDL_VIDEODRIVER" then some "offscreen"
      else if key = "SDL_HINT_CUDA_DEVICE" then some "0"
      else envLookup environ0 key := by
  have henv : L.env = overlayEnv environ0 := by
    simp only [setup] at hL
    by_cases htown : cfg.town ∈ allowedTowns
    · rw [if_pos htown] at hL
      rcases setupLoop_launch_env cfg oracle cfg.numMaxRestarts 0
          ⟨environ0, 0, [], [], []⟩ L hL with h | h
      · exact absurd h (List.not_mem_nil L)
      · exact h
    · rw [if_neg htown] at hL
      exact absurd hL (List.not_mem_nil L)
  rw [henv]
  exact envLookup_overlayEnv environ0 key

/-- Witness for `setup_child_env_overlay`: the single launch of a
one-attempt failing run carries the overlay environment, and an
untouched ambient key (`PATH`) reads through unchanged. -/
theorem setup_child_env_overlay_witness :
    ((⟨1000, 2000, overlayEnv env0⟩ : LaunchRec) ∈
      ((setup (mkCfg 1) orFail env0).state).launches) ∧
    envLookup (⟨1000, 2000, overlayEnv env0⟩ : LaunchRec).env "PATH" =
      (if "PATH" = "SDL_VIDEODRIVER" then some "offscreen"
       else if "PATH" = "SDL_HINT_CUDA_DEVICE" then some "0"
       else envLookup env0 "PATH") :=
  ⟨by decide,
    setup_child_env_overlay (mkCfg 1) orFail env0 ⟨1000, 2000, overlayEnv env0⟩
      "PATH" (by decide)⟩

/-- Claim C10: `setup` never mutates the parent process's environment:
the overrides go into the copied dict handed to the child, and whichever
way the run ends, the recorded `os.environ` equals the initial ambient
environment. -/
theorem setup_preserves_parent_environ (cfg : Config) (oracle : Oracle)
    (environ0 : Env) :
    ((setup cfg oracle environ0).state).environ = environ0 := by
  simp only [setup]
  by_cases htown : cfg.town ∈ allowedTowns
  · rw [if_pos htown]
    exact setupLoop_environ cfg oracle cfg.numMaxRestarts 0 ⟨environ0, 0, [], [], []⟩
  · rw [if_neg htown]
    rfl

end CarlaSetup
